import Mathlib

/-!
Verification of the rustyrabbit camera-calibration utility (src/main.rs)
against its natural-language specification.

The Rust program is shallowly embedded below:
* the frame channel (`std::sync::mpsc::channel`, an unbounded FIFO queue)
  is modelled as a `List` of frames, with `send` appending (mpsc senders
  enqueue) and `try_recv` removing the front element (mpsc receivers
  dequeue in send order, non-blocking);
* the render closure (main.rs lines 131-144) as a pure function of the
  channel state;
* the calibration UI callback (main.rs lines 64-105) as a function from
  the selector integer to its observable effects;
* the capture-thread loop body (main.rs lines 183-199) as a function of
  one iteration's inputs, with every fallible collaborator call
  (camera read, colour conversion, channel send, video-sink write)
  represented as a `RustResult` value, mirroring the `?` operator;
* the chessboard calibration loop (main.rs lines 218-301) as a recursive
  function over a finite list of per-iteration events, where an event is
  either "no frame pending" or a frame carrying the pattern detector's
  (external collaborator) verdict plus whether `wait_key` returned Esc.

Machine floats (`Point2f`/`Point3f` coordinates) never influence control
flow in the claims, so 2-D points are modelled with `Int` coordinates and
the 3-D object points (which the source builds from grid indices with
z = 0) with `Nat` triples. Collaborator error paths of the calibration
loop (`cvt_color`, `find_chessboard_corners`, `corner_sub_pix`, `imshow`,
`wait_key` returning `Err`) abort the function early via `?` and are not
modelled; the modelled events assume those calls succeed.
-/

namespace RustyRabbit

/-- A frame as carried on the channel: the RGBA byte buffer
(`frame_rgba.data_bytes()?.to_vec()` in main.rs line 191). -/
abbrev Frame := List Nat

/-- The freshly created frame channel (main.rs line 37): an empty FIFO. -/
def emptyChannel : List Frame := []

/-- `frame_sender.send(v)`: an mpsc sender enqueues at the back of the
queue; it never blocks and never drops or overwrites queued values. -/
def send (q : List Frame) (v : Frame) : List Frame := q ++ [v]

/-- `receiver.try_recv()`: non-blocking dequeue from the front of the
queue; `none` models `Err(TryRecvError::Empty)`. -/
def try_recv : List Frame → Option (Frame × List Frame)
  | [] => none
  | v :: rest => some (v, rest)

/-- Drain up to `n` frames from the channel by repeated `try_recv`,
recording the frames in the order a consumer receives them. -/
def drainN : Nat → List Frame → List Frame
  | 0, _ => []
  | n + 1, q =>
    match try_recv q with
    | none => []
    | some (v, q') => v :: drainN n q'

/-- The image value the render closure returns to the UI: either
`Image::default()` (an empty placeholder) or
`Image::from_rgba8(SharedPixelBuffer::clone_from_slice(data, w, h))`. -/
inductive DisplayImage
  | defaultImage
  | fromRgba (data : Frame) (width height : Nat)
  deriving DecidableEq

/-- The render closure (main.rs lines 131-144): try_recv from the frame
channel; on success build an image from the received bytes, otherwise
return `Image::default()`. The closure holds no previous-frame state. -/
def render (width height : Nat) (q : List Frame) : DisplayImage × List Frame :=
  match try_recv q with
  | some (frame_data, q') => (DisplayImage.fromRgba frame_data width height, q')
  | none => (DisplayImage.defaultImage, q)

/-- The calibration variants (main.rs lines 27-32). -/
inductive CalibrationType
  | ChessBoard
  | CircleGrid
  | RabbitPAruco
  deriving DecidableEq

/-- The selector match in the UI callback (main.rs lines 66-75):
0, 1 and 2 are the known variants, anything else is unknown. -/
def parseCalibrationType (selected : Int) : Option CalibrationType :=
  if selected = 0 then some CalibrationType.ChessBoard
  else if selected = 1 then some CalibrationType.CircleGrid
  else if selected = 2 then some CalibrationType.RabbitPAruco
  else none

/-- Observable outcome of one invocation of the UI start-calibration
callback: whether the unknown-variant error was printed, and which
variant (if any) was handed to `thread::spawn`. The source consults no
"session active" state and emits no busy response, so those are not
fields of the outcome. -/
structure HandlerResult where
  errorReported : Bool
  spawnedThread : Option CalibrationType
  deriving DecidableEq

/-- The `on_calibration_wrapper_callback` body (main.rs lines 64-105):
parse the selector; on an unknown value print an error and return
without spawning; on a known value spawn a calibration thread for that
variant. `_sessionActive` records whether a calibration session is
already running; the source never reads any such state, so the result
cannot depend on it. -/
def calibration_wrapper_callback (_sessionActive : Bool) (selected : Int) : HandlerResult :=
  match parseCalibrationType selected with
  | none => ⟨true, none⟩
  | some t => ⟨false, some t⟩

/-- One raw BGR frame as read from the camera: its bytes and the width
reported by `frame_bgr.size()?.width`. -/
structure RawFrame where
  bytes : List Nat
  width : Int
  deriving DecidableEq

/-- Rust's `Result<T, String>`, as produced by the fallible opencv and
channel calls the capture thread makes. -/
inductive RustResult (α : Type)
  | ok (val : α)
  | err (e : String)
  deriving DecidableEq

/-- The inputs of one iteration of the capture-thread loop
(main.rs lines 183-199): whether `exit_receiver.try_recv()` finds the
stop signal, and the results of the fallible collaborator calls
(`camera.read`, `cvt_color`, `frame_sender.send`, `out.write`). -/
structure CaptureIterInput where
  exitSignaled : Bool
  readResult : RustResult RawFrame
  convertResult : RustResult (List Nat)
  sendResult : RustResult Unit
  sinkWriteResult : RustResult Unit
  deriving DecidableEq

/-- Outcome of one capture-loop iteration. -/
inductive IterOutcome
  | exited
  | continued (published : List Nat)
  | failed (e : String)
  deriving DecidableEq

/-- Did the iteration propagate an error (terminating the thread)? -/
def IterOutcome.isFailed : IterOutcome → Bool
  | IterOutcome.failed _ => true
  | _ => false

/-- One iteration of the capture-thread loop (main.rs lines 183-199):
poll the exit channel once; if no signal, read a frame (`?`), convert it
(`?`), send the RGBA bytes (`?`), and if the BGR frame has positive
width, write it to the video sink (`?`). Each `RustResult.err` case
models the `?` operator propagating the error out of the thread
closure. -/
def captureIteration (inp : CaptureIterInput) : IterOutcome :=
  if inp.exitSignaled then IterOutcome.exited
  else
    match inp.readResult with
    | RustResult.err e => IterOutcome.failed e
    | RustResult.ok frame_bgr =>
      match inp.convertResult with
      | RustResult.err e => IterOutcome.failed e
      | RustResult.ok frame_rgba =>
        match inp.sendResult with
        | RustResult.err e => IterOutcome.failed e
        | RustResult.ok _ =>
          if 0 < frame_bgr.width then
            match inp.sinkWriteResult with
            | RustResult.err e => IterOutcome.failed e
            | RustResult.ok _ => IterOutcome.continued frame_rgba
          else IterOutcome.continued frame_rgba

/-- Outcome of running the capture loop over a finite trace of
iteration inputs. -/
inductive LoopOutcome
  | stillRunning
  | exitedCleanly
  | failed (e : String)
  deriving DecidableEq

/-- The capture-thread loop (main.rs `loop { ... }`, lines 183-199),
run over a finite trace of iteration inputs. `exitedCleanly` models
`break` followed by `Ok(())` being returned from the thread closure
(after which Rust drops the `VideoCapture` handle and the `join` in
main returns); `failed` models an `Err` propagating to the join point;
`stillRunning` means the trace ended with the loop still going. -/
def captureLoop : List CaptureIterInput → LoopOutcome
  | [] => LoopOutcome.stillRunning
  | inp :: rest =>
    match captureIteration inp with
    | IterOutcome.exited => LoopOutcome.exitedCleanly
    | IterOutcome.continued _ => captureLoop rest
    | IterOutcome.failed e => LoopOutcome.failed e

/-- A 3-D object point (`Point3f::new(row as f32, col as f32, 0.)`):
grid indices with z = 0, modelled over `Nat`. -/
abbrev Point3 := Nat × Nat × Nat

/-- A detected 2-D image point (`Point2f`), coordinates modelled
over `Int`. -/
abbrev Point2 := Int × Int

/-- `object_point_set` (main.rs lines 214-216): one reference point per
grid intersection, row-major. -/
def object_point_set (grid_rows grid_cols : Nat) : List Point3 :=
  (List.range grid_rows).flatMap
    (fun row => (List.range grid_cols).map (fun col => (row, col, 0)))

/-- `REQUIRED_FRAMES` (main.rs line 219). -/
def REQUIRED_FRAMES : Nat := 10

/-- The mutable state of the chessboard calibration loop
(main.rs lines 218-222): the two sample vectors and the counter. -/
structure CalibState where
  object_points : List (List Point3)
  image_points : List (List Point2)
  captured_frames : Nat
  deriving DecidableEq

/-- The state at loop entry: empty vectors, zero counter. -/
def initState : CalibState := ⟨[], [], 0⟩

/-- One iteration's worth of external input to the calibration loop:
either `try_recv` found no frame (the `else` branch sleeps), or a frame
arrived carrying the pattern detector's verdict — `some corners` if
`find_chessboard_corners` succeeded (with `corners` the points after
`corner_sub_pix` refinement), `none` if it failed — together with
whether `wait_key(1)` returned Esc (27) for this frame. -/
inductive CalibEvent
  | noFrame
  | frame (detected : Option (List Point2)) (esc : Bool)
  deriving DecidableEq

/-- Is this event the Esc cancellation? (`wait_key(1)? == 27` is only
reached when a frame was received.) -/
def CalibEvent.isCancel : CalibEvent → Bool
  | CalibEvent.frame _ true => true
  | _ => false

/-- Does this event carry a frame the detector accepted? -/
def CalibEvent.isAccept : CalibEvent → Bool
  | CalibEvent.frame (some _) _ => true
  | _ => false

/-- The single acceptance path (main.rs lines 256-259): push the refined
corners onto `image_points`, push a clone of `object_point_set` onto
`object_points`, increment `captured_frames`. No other statement in the
source mutates these three. -/
def acceptSample (objSet : List Point3) (st : CalibState) (corners : List Point2) : CalibState :=
  ⟨st.object_points ++ [objSet], st.image_points ++ [corners], st.captured_frames + 1⟩

/-- Result of running the calibration loop over a finite event trace:
either the trace ended with the `while` still looping, or the loop
exited — via the counter reaching `required` (`viaCancel = false`) or
via the Esc `break` (`viaCancel = true`) — and control fell through to
the `calibrate_camera` call (main.rs line 282) with the recorded state.
In the source the solver call follows the loop unconditionally. -/
inductive RunOutcome
  | stillCapturing (st : CalibState)
  | solverCalled (st : CalibState) (viaCancel : Bool)
  deriving DecidableEq

/-- The sample state at the end of the run. -/
def RunOutcome.state : RunOutcome → CalibState
  | RunOutcome.stillCapturing st => st
  | RunOutcome.solverCalled st _ => st

/-- Was `calibrate_camera` reached? -/
def RunOutcome.solverInvoked : RunOutcome → Bool
  | RunOutcome.stillCapturing _ => false
  | RunOutcome.solverCalled _ _ => true

/-- The `while captured_frames < REQUIRED_FRAMES` loop of
`start_chessboard_calibration` (main.rs lines 225-274) followed by the
unconditional `calibrate_camera` call (line 282), over a finite event
trace. The loop condition is checked before each iteration; an accepted
frame goes through `acceptSample`; after processing any received frame
(accepted or not) the Esc check may `break` out of the loop. -/
def runCapture (required : Nat) (objSet : List Point3) : CalibState → List CalibEvent → RunOutcome
  | st, [] =>
    if st.captured_frames < required then RunOutcome.stillCapturing st
    else RunOutcome.solverCalled st false
  | st, CalibEvent.noFrame :: rest =>
    if st.captured_frames < required then runCapture required objSet st rest
    else RunOutcome.solverCalled st false
  | st, CalibEvent.frame (some corners) esc :: rest =>
    if st.captured_frames < required then
      if esc then RunOutcome.solverCalled (acceptSample objSet st corners) true
      else runCapture required objSet (acceptSample objSet st corners) rest
    else RunOutcome.solverCalled st false
  | st, CalibEvent.frame none esc :: rest =>
    if st.captured_frames < required then
      if esc then RunOutcome.solverCalled st true
      else runCapture required objSet st rest
    else RunOutcome.solverCalled st false

/-- `start_chessboard_calibration` (main.rs lines 204-302): build the
object point set for the requested grid, then run the capture loop from
the empty state with the fixed required count of 10. -/
def start_chessboard_calibration (grid_rows grid_cols : Nat) (evs : List CalibEvent) : RunOutcome :=
  runCapture REQUIRED_FRAMES (object_point_set grid_rows grid_cols) initState evs

/-- Iterated `acceptSample`, used to describe the state after a run of
consecutively accepted frames. -/
def acceptN (objSet : List Point3) (corners : List Point2) : Nat → CalibState → CalibState
  | 0, st => st
  | n + 1, st => acceptN objSet corners n (acceptSample objSet st corners)

/-- Observable effects of one of the non-chessboard variant entry
points: whether the parameters were logged to stderr, how many frames
were pulled from the channel, how many samples were accumulated, and
whether `calibrate_camera` was invoked. -/
structure VariantRun where
  loggedParams : Bool
  framesRead : Nat
  samplesAccumulated : Nat
  solverInvoked : Bool
  deriving DecidableEq

/-- `start_circle_grid_calibration` (main.rs lines 304-311): prints the
row/column parameters to stderr and returns `Ok(())`; it touches no
frames, no detector, no samples and no solver. -/
def start_circle_grid_calibration (_grid_rows _grid_cols : Int) : VariantRun :=
  ⟨true, 0, 0, false⟩

/-- `start_aruco_calibration` (main.rs lines 313-320): prints the two
location strings to stderr and returns `Ok(())`; it touches no frames,
no detector, no samples and no solver. -/
def start_aruco_calibration (_loc_x _loc_y : String) : VariantRun :=
  ⟨true, 0, 0, false⟩

/-- A normal capture-loop iteration input: no exit signal, all
collaborator calls succeed, frame width positive. -/
def inpNormal : CaptureIterInput :=
  ⟨false, RustResult.ok ⟨[1, 2, 3], 640⟩, RustResult.ok [4, 5, 6, 7], RustResult.ok (), RustResult.ok ()⟩

/-- An iteration input whose exit-channel poll finds the stop signal. -/
def inpExit : CaptureIterInput :=
  ⟨true, RustResult.ok ⟨[1], 1⟩, RustResult.ok [1], RustResult.ok (), RustResult.ok ()⟩

/-- An iteration input where only the video-sink write fails. -/
def inpSinkFail : CaptureIterInput :=
  ⟨false, RustResult.ok ⟨[5, 5, 5], 640⟩, RustResult.ok [7, 7, 7, 7], RustResult.ok (), RustResult.err "sink write failed"⟩

/-- A trace of events the pattern detector rejects throughout. -/
def evsRejected : List CalibEvent :=
  [CalibEvent.noFrame, CalibEvent.frame none false, CalibEvent.frame none false, CalibEvent.noFrame]

/-- A trace of ten frames the pattern detector accepts. -/
def evsTenAccepted : List CalibEvent :=
  List.replicate 10 (CalibEvent.frame (some [(3, 4)]) false)

/-! ## Helper lemmas -/

/-- Folding `send` over a list of frames appends them all in order. -/
theorem foldl_send_eq (vs : List Frame) : ∀ q : List Frame, List.foldl send q vs = q ++ vs := by
  induction vs with
  | nil => intro q; simp
  | cons v vs ih =>
    intro q
    calc List.foldl send q (v :: vs) = List.foldl send (q ++ [v]) vs := rfl
      _ = (q ++ [v]) ++ vs := ih (q ++ [v])
      _ = q ++ v :: vs := by simp

/-- Draining a queue of `n` frames by repeated `try_recv` returns the
queue's contents front to back. -/
theorem drainN_eq (q : List Frame) : drainN q.length q = q := by
  induction q with
  | nil => rfl
  | cons v rest ih => simp [drainN, try_recv, ih]

/-- Unfolding: a pending `while` check that fails (counter reached the
required count) exits the loop and reaches the solver, whatever event
is next. -/
theorem runCapture_cons_stop (required : Nat) (objSet : List Point3) (st : CalibState)
    (ev : CalibEvent) (rest : List CalibEvent) (h : ¬ st.captured_frames < required) :
    runCapture required objSet st (ev :: rest) = RunOutcome.solverCalled st false := by
  cases ev with
  | noFrame => simp [runCapture, h]
  | frame det esc => cases det <;> simp [runCapture, h]

/-- Unfolding: an empty-channel iteration (sleep branch) changes
nothing. -/
theorem runCapture_cons_noFrame (required : Nat) (objSet : List Point3) (st : CalibState)
    (rest : List CalibEvent) (h : st.captured_frames < required) :
    runCapture required objSet st (CalibEvent.noFrame :: rest) =
      runCapture required objSet st rest := by
  simp [runCapture, h]

/-- Unfolding: a rejected frame without Esc changes nothing. -/
theorem runCapture_cons_reject (required : Nat) (objSet : List Point3) (st : CalibState)
    (rest : List CalibEvent) (h : st.captured_frames < required) :
    runCapture required objSet st (CalibEvent.frame none false :: rest) =
      runCapture required objSet st rest := by
  simp [runCapture, h]

/-- Unfolding: an accepted frame without Esc goes through the single
acceptance path `acceptSample`. -/
theorem runCapture_cons_accept (required : Nat) (objSet : List Point3) (st : CalibState)
    (corners : List Point2) (rest : List CalibEvent) (h : st.captured_frames < required) :
    runCapture required objSet st (CalibEvent.frame (some corners) false :: rest) =
      runCapture required objSet (acceptSample objSet st corners) rest := by
  simp [runCapture, h]

/-- Unfolding: Esc after a rejected frame breaks out of the loop and
falls through to the solver call with the state unchanged. -/
theorem runCapture_cons_cancel_reject (required : Nat) (objSet : List Point3) (st : CalibState)
    (rest : List CalibEvent) (h : st.captured_frames < required) :
    runCapture required objSet st (CalibEvent.frame none true :: rest) =
      RunOutcome.solverCalled st true := by
  simp [runCapture, h]

/-- Invariants of the calibration capture loop, for any run without an
Esc cancellation: the two sample vectors stay in lockstep with the
counter, the counter never exceeds `required`, and whenever the solver
is reached the counter equals `required` exactly. -/
theorem runCapture_inv (required : Nat) (objSet : List Point3) (evs : List CalibEvent) :
    ∀ st : CalibState,
    st.object_points.length = st.captured_frames →
    st.image_points.length = st.captured_frames →
    st.captured_frames ≤ required →
    (∀ ev ∈ evs, ev.isCancel = false) →
    (runCapture required objSet st evs).state.object_points.length =
        (runCapture required objSet st evs).state.captured_frames ∧
    (runCapture required objSet st evs).state.image_points.length =
        (runCapture required objSet st evs).state.captured_frames ∧
    (runCapture required objSet st evs).state.captured_frames ≤ required ∧
    ((runCapture required objSet st evs).solverInvoked = true →
        (runCapture required objSet st evs).state.captured_frames = required) := by
  induction evs with
  | nil =>
    intro st h1 h2 h3 _
    by_cases h : st.captured_frames < required
    · simp [runCapture, h, RunOutcome.state, RunOutcome.solverInvoked, h1, h2, h3]
    · simp only [runCapture, if_neg h, RunOutcome.state, RunOutcome.solverInvoked]
      exact ⟨h1, h2, h3, fun _ => Nat.le_antisymm h3 (Nat.le_of_not_lt h)⟩
  | cons ev rest ih =>
    intro st h1 h2 h3 hnc
    have hnc' : ∀ e ∈ rest, e.isCancel = false :=
      fun e he => hnc e (List.mem_cons_of_mem _ he)
    by_cases h : st.captured_frames < required
    · cases ev with
      | noFrame =>
        rw [runCapture_cons_noFrame required objSet st rest h]
        exact ih st h1 h2 h3 hnc'
      | frame det esc =>
        have hesc : esc = false := by
          have hc := hnc _ (List.mem_cons_self _ _)
          cases esc
          · rfl
          · simp [CalibEvent.isCancel] at hc
        subst hesc
        cases det with
        | none =>
          rw [runCapture_cons_reject required objSet st rest h]
          exact ih st h1 h2 h3 hnc'
        | some corners =>
          rw [runCapture_cons_accept required objSet st corners rest h]
          exact ih (acceptSample objSet st corners)
            (by simp [acceptSample, h1]) (by simp [acceptSample, h2])
            (by simp [acceptSample]; omega) hnc'
    · rw [runCapture_cons_stop required objSet st ev rest h]
      simp only [RunOutcome.state, RunOutcome.solverInvoked]
      exact ⟨h1, h2, h3, fun _ => Nat.le_antisymm h3 (Nat.le_of_not_lt h)⟩

/-- If a cancellation-free trace carries at least `required` accepted
frames, the loop terminates and the solver is reached. -/
theorem runCapture_reaches (required : Nat) (objSet : List Point3) (evs : List CalibEvent) :
    ∀ st : CalibState,
    (∀ ev ∈ evs, ev.isCancel = false) →
    required ≤ st.captured_frames + evs.countP CalibEvent.isAccept →
    (runCapture required objSet st evs).solverInvoked = true := by
  induction evs with
  | nil =>
    intro st _ hcount
    rw [List.countP_nil] at hcount
    have h : ¬ st.captured_frames < required := by omega
    simp [runCapture, h, RunOutcome.solverInvoked]
  | cons ev rest ih =>
    intro st hnc hcount
    have hnc' : ∀ e ∈ rest, e.isCancel = false :=
      fun e he => hnc e (List.mem_cons_of_mem _ he)
    by_cases h : st.captured_frames < required
    · cases ev with
      | noFrame =>
        rw [runCapture_cons_noFrame required objSet st rest h]
        apply ih st hnc'
        simp [List.countP_cons, CalibEvent.isAccept] at hcount
        omega
      | frame det esc =>
        have hesc : esc = false := by
          have hc := hnc _ (List.mem_cons_self _ _)
          cases esc
          · rfl
          · simp [CalibEvent.isCancel] at hc
        subst hesc
        cases det with
        | none =>
          rw [runCapture_cons_reject required objSet st rest h]
          apply ih st hnc'
          simp [List.countP_cons, CalibEvent.isAccept] at hcount
          omega
        | some corners =>
          rw [runCapture_cons_accept required objSet st corners rest h]
          apply ih (acceptSample objSet st corners) hnc'
          simp [List.countP_cons, CalibEvent.isAccept] at hcount
          simp only [acceptSample]
          omega
    · rw [runCapture_cons_stop required objSet st ev rest h]
      rfl

/-- A run fed only empty-channel iterations and rejected frames leaves
the state untouched and keeps looping. -/
theorem runCapture_rejected (required : Nat) (objSet : List Point3) (evs : List CalibEvent) :
    ∀ st : CalibState, st.captured_frames < required →
    (∀ ev ∈ evs, ev = CalibEvent.noFrame ∨ ev = CalibEvent.frame none false) →
    runCapture required objSet st evs = RunOutcome.stillCapturing st := by
  induction evs with
  | nil => intro st h _; simp [runCapture, h]
  | cons ev rest ih =>
    intro st h hr
    have hr' : ∀ e ∈ rest, e = CalibEvent.noFrame ∨ e = CalibEvent.frame none false :=
      fun e he => hr e (List.mem_cons_of_mem _ he)
    rcases hr ev (List.mem_cons_self _ _) with h1 | h1 <;> subst h1
    · rw [runCapture_cons_noFrame required objSet st rest h]
      exact ih st h hr'
    · rw [runCapture_cons_reject required objSet st rest h]
      exact ih st h hr'

/-- The state after `n` consecutive acceptances: `n` copies of the
object point set and of the corners appended, counter up by `n`. -/
theorem acceptN_spec (objSet : List Point3) (corners : List Point2) :
    ∀ (n : Nat) (st : CalibState),
    acceptN objSet corners n st =
      ⟨st.object_points ++ List.replicate n objSet,
       st.image_points ++ List.replicate n corners,
       st.captured_frames + n⟩ := by
  intro n
  induction n with
  | zero => intro st; cases st; simp [acceptN]
  | succ n ih =>
    intro st
    rw [acceptN, ih]
    simp [acceptSample, List.replicate_succ, CalibState.mk.injEq]
    omega

/-- Processing a block of `n` accepted frames (no Esc) that fits under
the required count just iterates the acceptance path. -/
theorem runCapture_replicate_accept (required : Nat) (objSet : List Point3)
    (corners : List Point2) :
    ∀ (n : Nat) (st : CalibState) (rest : List CalibEvent),
    st.captured_frames + n ≤ required →
    runCapture required objSet st
        (List.replicate n (CalibEvent.frame (some corners) false) ++ rest) =
      runCapture required objSet (acceptN objSet corners n st) rest := by
  intro n
  induction n with
  | zero => intro st rest _; simp [acceptN]
  | succ n ih =>
    intro st rest h
    have hlt : st.captured_frames < required := by omega
    rw [List.replicate_succ, List.cons_append,
      runCapture_cons_accept required objSet st corners _ hlt]
    rw [ih (acceptSample objSet st corners) rest (by simp [acceptSample]; omega)]
    rfl

/-! ## C1: frame-channel semantics -/

/-- C1 counterexample. The claim says the Frame Channel has latest-wins
semantics — a send overwrites any unconsumed frame, and a non-blocking
receive yields the most recent frame, never an older one while a newer
one exists. Concretely: send frame `[0]` and then frame `[1]` into the
fresh channel. Both remain queued (the second send overwrote nothing),
and `try_recv` yields the OLDER frame `[0]` while the newer `[1]` is
still in the channel — refuting the claim. -/
theorem channel_latest_wins_counterexample :
    send (send emptyChannel [0]) [1] = [[0], [1]] ∧
    try_recv (send (send emptyChannel [0]) [1]) = some ([0], [[1]]) := by
  decide

/-- C1 amended: the Frame Channel (`std::sync::mpsc`) is an unbounded
FIFO queue. A send appends one frame and never drops or overwrites any
queued frame (the old queue is a sublist of the new one and the length
grows by one), and a consumer draining the channel receives exactly the
sent frames in capture order — so a non-blocking receive yields the
OLDEST pending frame, and an older frame can be received while newer
ones remain queued. -/
theorem channel_fifo_semantics (q : List Frame) (v : Frame) (vs : List Frame) :
    (send q v).length = q.length + 1 ∧
    List.Sublist q (send q v) ∧
    drainN vs.length (List.foldl send emptyChannel vs) = vs := by
  refine ⟨by simp [send], ?_, ?_⟩
  · exact List.sublist_append_left q [v]
  · rw [foldl_send_eq vs emptyChannel]
    show drainN vs.length vs = vs
    exact drainN_eq vs

/-! ## C7: render-bridge behaviour on an empty channel -/

/-- C7 counterexample. The claim says that when the non-blocking receive
yields no frame, the render closure returns the previously rendered
buffer, with the empty placeholder only on the very first tick.
Concretely: on a first tick the channel holds frame `[9, 9, 9, 9]` and
render returns its image; on the next tick the channel is empty and
render returns `Image::default()` — the empty placeholder, not the
previously rendered buffer — even though it is not the first tick. -/
theorem render_previous_buffer_counterexample :
    render 2 2 [[9, 9, 9, 9]] = (DisplayImage.fromRgba [9, 9, 9, 9] 2 2, []) ∧
    render 2 2 [] = (DisplayImage.defaultImage, []) ∧
    DisplayImage.defaultImage ≠ DisplayImage.fromRgba [9, 9, 9, 9] 2 2 := by
  decide

/-- C7 amended: on every UI tick where the non-blocking receive yields
no frame, the render closure returns `Image::default()` (the empty
placeholder) — on every such tick, not only the very first; it keeps no
previously-rendered buffer. When a frame is available it returns that
frame's image and consumes it from the channel. -/
theorem render_empty_gives_default (width height : Nat) (q q' : List Frame) (f : Frame) :
    (try_recv q = none → render width height q = (DisplayImage.defaultImage, q)) ∧
    (try_recv q = some (f, q') →
      render width height q = (DisplayImage.fromRgba f width height, q')) := by
  constructor
  · intro h; simp [render, h]
  · intro h; simp [render, h]

/-- C7 witness: both branches of `render_empty_gives_default` realised
on concrete channels. -/
theorem render_empty_gives_default_witness :
    render 4 3 [] = (DisplayImage.defaultImage, []) ∧
    render 4 3 [[1, 2]] = (DisplayImage.fromRgba [1, 2] 4 3, []) :=
  ⟨(render_empty_gives_default 4 3 [] [] [0]).1 rfl,
   (render_empty_gives_default 4 3 [[1, 2]] [] [1, 2]).2 rfl⟩

/-! ## C4: start request while a session is active -/

/-- C4 counterexample. The claim says a start request arriving while a
session is active is rejected synchronously with a busy result and no
second session thread is spawned. Concretely: with a session active
(first argument `true`) a request for variant 0 (chessboard) still
spawns a calibration thread and reports no error — the callback never
checks any session state and has no busy response. -/
theorem busy_rejection_counterexample :
    calibration_wrapper_callback true 0 =
      ⟨false, some CalibrationType.ChessBoard⟩ := by
  decide

/-- C4 amended: a start request with a known variant selector always
spawns a new calibration session thread, whether or not a session is
already active; the callback consults no session state (its result is
independent of session activity) and produces no busy rejection.
Requests are thus neither queued nor dropped — but they are never
rejected either. -/
theorem start_request_always_spawns (active active' : Bool) (selected : Int)
    (t : CalibrationType) (h : parseCalibrationType selected = some t) :
    calibration_wrapper_callback active selected = ⟨false, some t⟩ ∧
    calibration_wrapper_callback active selected =
      calibration_wrapper_callback active' selected := by
  constructor
  · simp [calibration_wrapper_callback, h]
  · rfl

/-- C4 witness: variant 1 (circle grid), requested while a session is
active, spawns a thread. -/
theorem start_request_always_spawns_witness :
    parseCalibrationType 1 = some CalibrationType.CircleGrid ∧
    (calibration_wrapper_callback true 1 = ⟨false, some CalibrationType.CircleGrid⟩ ∧
      calibration_wrapper_callback true 1 = calibration_wrapper_callback false 1) :=
  ⟨by decide, start_request_always_spawns true false 1 CalibrationType.CircleGrid (by decide)⟩

/-! ## C10: unknown variant selector -/

/-- C10: a start request whose variant selector is not 0, 1 or 2 makes
the callback print an error and return immediately: no calibration
thread is spawned and no other effect occurs, regardless of session
state. -/
theorem unknown_variant_rejected (active : Bool) (selected : Int)
    (h0 : selected ≠ 0) (h1 : selected ≠ 1) (h2 : selected ≠ 2) :
    calibration_wrapper_callback active selected = ⟨true, none⟩ := by
  simp [calibration_wrapper_callback, parseCalibrationType, h0, h1, h2]

/-- C10 witness: selector 7 reports an error and spawns nothing. -/
theorem unknown_variant_rejected_witness :
    (7 : Int) ≠ 0 ∧ (7 : Int) ≠ 1 ∧ (7 : Int) ≠ 2 ∧
    calibration_wrapper_callback false 7 = ⟨true, none⟩ :=
  ⟨by decide, by decide, by decide,
   unknown_variant_rejected false 7 (by decide) (by decide) (by decide)⟩

/-! ## C8: the non-chessboard variants -/

/-- C8 counterexample. The claim says the circle-grid and
fiducial-marker variants run the same capture-detect-accumulate-solve
state machine, differing only in detector and target. Concretely:
starting the circle-grid variant (6×9 grid) reads no frames,
accumulates no samples and never invokes the solver, and the aruco
variant behaves the same — both return immediately after logging. -/
theorem variant_stub_counterexample :
    (start_circle_grid_calibration 6 9).solverInvoked = false ∧
    (start_circle_grid_calibration 6 9).framesRead = 0 ∧
    (start_circle_grid_calibration 6 9).samplesAccumulated = 0 ∧
    (start_aruco_calibration "1" "2").solverInvoked = false ∧
    (start_aruco_calibration "1" "2").samplesAccumulated = 0 := by
  decide

/-- C8 amended: the circle-grid and fiducial-marker variants are
unimplemented stubs. For every argument, starting either variant only
logs the request parameters to stderr and returns `Ok(())` at once:
no frame is read, no detector runs, no sample is accumulated, and the
calibration solver is never invoked. Only the chessboard variant runs
the capture/solve state machine. -/
theorem variant_stubs_do_nothing (grid_rows grid_cols : Int) (loc_x loc_y : String) :
    start_circle_grid_calibration grid_rows grid_cols = ⟨true, 0, 0, false⟩ ∧
    start_aruco_calibration loc_x loc_y = ⟨true, 0, 0, false⟩ :=
  ⟨rfl, rfl⟩

/-! ## C5: video-sink write failure -/

/-- C5 counterexample. The claim says a Video Sink write failure is
recovered locally: logged, the iteration completes, capture continues.
Concretely: an iteration with no exit signal, a successful camera read
of a 640-wide frame, successful conversion and send, but a failing sink
write, makes the whole iteration fail — `out.write(&frame_bgr)?`
propagates the error, the capture loop terminates with it, and the
error surfaces at the join point in `main`. -/
theorem sink_write_failure_counterexample :
    captureIteration inpSinkFail = IterOutcome.failed "sink write failed" ∧
    captureLoop [inpSinkFail, inpNormal] = LoopOutcome.failed "sink write failed" := by
  decide

/-- C5 amended: a Video Sink write failure on a frame of positive width
is NOT recovered locally: the `?` operator propagates it, the iteration
does not complete, no further frame is captured, and the error
terminates the Capture Thread, surfacing at the join point. -/
theorem sink_write_failure_kills_thread (frame_bgr : RawFrame) (frame_rgba : List Nat)
    (e : String) (hw : 0 < frame_bgr.width) :
    captureIteration
        ⟨false, RustResult.ok frame_bgr, RustResult.ok frame_rgba,
          RustResult.ok (), RustResult.err e⟩ =
      IterOutcome.failed e ∧
    captureLoop
        [⟨false, RustResult.ok frame_bgr, RustResult.ok frame_rgba,
          RustResult.ok (), RustResult.err e⟩] =
      LoopOutcome.failed e := by
  have hiter : captureIteration
      ⟨false, RustResult.ok frame_bgr, RustResult.ok frame_rgba,
        RustResult.ok (), RustResult.err e⟩ = IterOutcome.failed e := by
    simp [captureIteration, hw]
  exact ⟨hiter, by simp [captureLoop, hiter]⟩

/-! ## C2: sample accumulation in the chessboard session -/

/-- C2: in every run of the chessboard calibration session without an
Esc cancellation, samples are appended only through the single
acceptance path (`acceptSample`, the only statement of the model — and
of the source — that touches the vectors), `len(object_points)` and
`len(image_points)` both equal `captured_frames` after every step, the
counter never passes the required count of 10 (no 11th sample is ever
appended), whenever `calibrate_camera` is reached the sample set has
length exactly 10, and a trace carrying at least 10 accepted frames
does reach the solver. -/
theorem chessboard_capture_invariants (grid_rows grid_cols : Nat) (evs : List CalibEvent)
    (hnc : ∀ ev ∈ evs, ev.isCancel = false) :
    (start_chessboard_calibration grid_rows grid_cols evs).state.object_points.length =
        (start_chessboard_calibration grid_rows grid_cols evs).state.captured_frames ∧
    (start_chessboard_calibration grid_rows grid_cols evs).state.image_points.length =
        (start_chessboard_calibration grid_rows grid_cols evs).state.captured_frames ∧
    (start_chessboard_calibration grid_rows grid_cols evs).state.captured_frames ≤
        REQUIRED_FRAMES ∧
    ((start_chessboard_calibration grid_rows grid_cols evs).solverInvoked = true →
        (start_chessboard_calibration grid_rows grid_cols evs).state.captured_frames =
          REQUIRED_FRAMES) ∧
    (REQUIRED_FRAMES ≤ evs.countP CalibEvent.isAccept →
        (start_chessboard_calibration grid_rows grid_cols evs).solverInvoked = true) := by
  have hinv := runCapture_inv REQUIRED_FRAMES (object_point_set grid_rows grid_cols) evs
    initState rfl rfl (Nat.zero_le _) hnc
  refine ⟨hinv.1, hinv.2.1, hinv.2.2.1, hinv.2.2.2, ?_⟩
  intro hcount
  exact runCapture_reaches REQUIRED_FRAMES (object_point_set grid_rows grid_cols) evs
    initState hnc (by simpa [initState] using hcount)

/-- C2 witness: a cancellation-free trace of ten accepted frames on a
2×2 grid keeps the vectors in lockstep, stops at exactly ten samples
and reaches the solver. -/
theorem chessboard_capture_invariants_witness :
    (∀ ev ∈ evsTenAccepted, ev.isCancel = false) ∧
    ((start_chessboard_calibration 2 2 evsTenAccepted).state.object_points.length =
        (start_chessboard_calibration 2 2 evsTenAccepted).state.captured_frames ∧
      (start_chessboard_calibration 2 2 evsTenAccepted).state.image_points.length =
        (start_chessboard_calibration 2 2 evsTenAccepted).state.captured_frames ∧
      (start_chessboard_calibration 2 2 evsTenAccepted).state.captured_frames ≤
        REQUIRED_FRAMES ∧
      ((start_chessboard_calibration 2 2 evsTenAccepted).solverInvoked = true →
        (start_chessboard_calibration 2 2 evsTenAccepted).state.captured_frames =
          REQUIRED_FRAMES) ∧
      (REQUIRED_FRAMES ≤ evsTenAccepted.countP CalibEvent.isAccept →
        (start_chessboard_calibration 2 2 evsTenAccepted).solverInvoked = true)) :=
  ⟨by decide, chessboard_capture_invariants 2 2 evsTenAccepted (by decide)⟩

/-! ## C3: cancellation mid-capture -/

/-- C3 counterexample. The claim says a session cancelled while
capturing ends in a Cancelled state, the solver is never invoked, and
the partial sample set is discarded. Concretely: a 2×2-grid session fed
nine accepted frames and then a frame on which Esc is pressed exits the
loop via `break` — and then falls through to `calibrate_camera`, which
IS invoked, with the nine-sample partial set retained, not discarded;
no Cancelled state exists in the code. -/
theorem cancel_discards_counterexample :
    start_chessboard_calibration 2 2
        (List.replicate 9 (CalibEvent.frame (some [(1, 2)]) false) ++
          [CalibEvent.frame none true]) =
      RunOutcome.solverCalled
        ⟨List.replicate 9 (object_point_set 2 2), List.replicate 9 [(1, 2)], 9⟩ true ∧
    (start_chessboard_calibration 2 2
        (List.replicate 9 (CalibEvent.frame (some [(1, 2)]) false) ++
          [CalibEvent.frame none true])).solverInvoked = true := by
  decide

/-- C3 amended: cancelling (Esc) a chessboard session after `n < 10`
accepted frames exits the capture loop, but the Calibration Solver is
still invoked — `calibrate_camera` runs on the partial sample set of
`n` retained object-point/image-point pairs; the samples are not
discarded and the session has no Cancelled terminal state. -/
theorem cancel_still_invokes_solver (grid_rows grid_cols n : Nat) (corners : List Point2)
    (hn : n < REQUIRED_FRAMES) :
    start_chessboard_calibration grid_rows grid_cols
        (List.replicate n (CalibEvent.frame (some corners) false) ++
          [CalibEvent.frame none true]) =
      RunOutcome.solverCalled
        ⟨List.replicate n (object_point_set grid_rows grid_cols),
          List.replicate n corners, n⟩ true := by
  unfold start_chessboard_calibration
  rw [runCapture_replicate_accept REQUIRED_FRAMES (object_point_set grid_rows grid_cols)
    corners n initState [CalibEvent.frame none true] (by simp [initState]; omega)]
  rw [acceptN_spec (object_point_set grid_rows grid_cols) corners n initState]
  have hlt : (CalibState.mk
      (initState.object_points ++ List.replicate n (object_point_set grid_rows grid_cols))
      (initState.image_points ++ List.replicate n corners)
      (initState.captured_frames + n)).captured_frames < REQUIRED_FRAMES := by
    simp [initState]; omega
  rw [runCapture_cons_cancel_reject REQUIRED_FRAMES (object_point_set grid_rows grid_cols)
    _ [] hlt]
  simp [initState]

/-- C3 witness: `cancel_still_invokes_solver` realised after nine
accepted frames on a 3×3 grid. -/
theorem cancel_still_invokes_solver_witness :
    9 < REQUIRED_FRAMES ∧
    start_chessboard_calibration 3 3
        (List.replicate 9 (CalibEvent.frame (some [(5, 6)]) false) ++
          [CalibEvent.frame none true]) =
      RunOutcome.solverCalled
        ⟨List.replicate 9 (object_point_set 3 3), List.replicate 9 [(5, 6)], 9⟩ true :=
  ⟨by decide, cancel_still_invokes_solver 3 3 9 [(5, 6)] (by decide)⟩

/-! ## C6: detector rejects everything -/

/-- C6: a chessboard session fed any finite trace of iterations in
which the Pattern Detector rejects every frame (and no Esc is pressed)
is still in its capture loop with the initial empty state — it never
leaves capturing and `calibrate_camera` is never invoked, for traces of
every length. -/
theorem all_rejected_never_solves (grid_rows grid_cols : Nat) (evs : List CalibEvent)
    (hr : ∀ ev ∈ evs, ev = CalibEvent.noFrame ∨ ev = CalibEvent.frame none false) :
    start_chessboard_calibration grid_rows grid_cols evs =
      RunOutcome.stillCapturing initState ∧
    (start_chessboard_calibration grid_rows grid_cols evs).solverInvoked = false := by
  have h := runCapture_rejected REQUIRED_FRAMES (object_point_set grid_rows grid_cols) evs
    initState (by simp [initState, REQUIRED_FRAMES]) hr
  exact ⟨h, by rw [show start_chessboard_calibration grid_rows grid_cols evs =
    RunOutcome.stillCapturing initState from h]; rfl⟩

/-- C6 witness: a concrete all-rejected trace on a 3×3 grid stays
capturing with the empty state. -/
theorem all_rejected_never_solves_witness :
    (∀ ev ∈ evsRejected, ev = CalibEvent.noFrame ∨ ev = CalibEvent.frame none false) ∧
    (start_chessboard_calibration 3 3 evsRejected = RunOutcome.stillCapturing initState ∧
      (start_chessboard_calibration 3 3 evsRejected).solverInvoked = false) :=
  ⟨by decide, all_rejected_never_solves 3 3 evsRejected (by decide)⟩

/-! ## C9: capture-thread cancellation -/

/-- C9: the capture thread polls the exit channel non-blockingly once
at the top of each loop iteration (one poll per iteration, by the shape
of `captureIteration`). An iteration whose poll finds the stop signal
does nothing else — no camera read, no conversion, no send, no sink
write — and breaks out, so after the signal is sent the thread exits at
the very next poll, i.e. within one further iteration. Provided the
iterations before the signal did not fail, the loop returns cleanly
(`Ok(())` from the thread closure), after which the camera handle is
dropped and the `join` in `main` returns. -/
theorem capture_thread_exits_on_signal (pre post : List CaptureIterInput)
    (inp : CaptureIterInput)
    (hpre : ∀ i ∈ pre, (captureIteration i).isFailed = false)
    (hsig : inp.exitSignaled = true) :
    captureIteration inp = IterOutcome.exited ∧
    captureLoop (pre ++ inp :: post) = LoopOutcome.exitedCleanly := by
  have hexit : captureIteration inp = IterOutcome.exited := by
    simp [captureIteration, hsig]
  refine ⟨hexit, ?_⟩
  induction pre with
  | nil => simp [captureLoop, hexit]
  | cons i pre ih =>
    have hi := hpre i (List.mem_cons_self _ _)
    rw [List.cons_append]
    cases hio : captureIteration i with
    | exited => simp [captureLoop, hio]
    | continued pub =>
      simp only [captureLoop, hio]
      exact ih (fun j hj => hpre j (List.mem_cons_of_mem _ hj))
    | failed e => rw [hio] at hi; simp [IterOutcome.isFailed] at hi

/-- C9 witness: one normal iteration, then an iteration that observes
the stop signal; the loop exits cleanly without touching the trailing
iteration. -/
theorem capture_thread_exits_on_signal_witness :
    (∀ i ∈ [inpNormal], (captureIteration i).isFailed = false) ∧
    inpExit.exitSignaled = true ∧
    (captureIteration inpExit = IterOutcome.exited ∧
      captureLoop ([inpNormal] ++ inpExit :: [inpNormal]) = LoopOutcome.exitedCleanly) :=
  ⟨by decide, by decide,
   capture_thread_exits_on_signal [inpNormal] [inpNormal] inpExit (by decide) (by decide)⟩

/-- C5 witness: `sink_write_failure_kills_thread` realised on a
concrete 640-wide frame. -/
theorem sink_write_failure_kills_thread_witness :
    0 < (RawFrame.mk [8, 8] 640).width ∧
    (captureIteration
        ⟨false, RustResult.ok (RawFrame.mk [8, 8] 640), RustResult.ok [9, 9],
          RustResult.ok (), RustResult.err "disk full"⟩ =
      IterOutcome.failed "disk full" ∧
    captureLoop
        [⟨false, RustResult.ok (RawFrame.mk [8, 8] 640), RustResult.ok [9, 9],
          RustResult.ok (), RustResult.err "disk full"⟩] =
      LoopOutcome.failed "disk full") :=
  ⟨by decide,
   sink_write_failure_kills_thread (RawFrame.mk [8, 8] 640) [9, 9] "disk full" (by decide)⟩

end RustyRabbit
